import Mathlib

/-!
Verification of the RecipeWebSite web application (`src/recipes/webapp/`).

The file shallowly embeds the data model and the view handlers of
`views.py`.  The database is a list of `Recipe` records in storage order;
Django ORM calls become list operations:

* `Recipe.objects.filter(...)`            — `List.filter` (keeps storage order);
* `.order_by('-created_date')`            — a stable sort by descending
  `created_date` (`List.insertionSort newerLe`);
* `get_object_or_404(...)`                — `List.find?`, raising `Http404`
  (modelled as `HttpFailure.notFound`) when absent;
* `UserPassesTestMixin`                   — the dispatcher runs `test_func`
  and answers `HttpFailure.permissionDenied` when it returns `false`;
* `paginate_by = 5`                       — chunking the queryset into
  pages of five (`paginate 5`).

Exceptions raised by the framework calls (`super().form_valid`,
`super().delete`, the ORM) are modelled by an `Except String` parameter
injected into each handler: `.ok ()` when the framework call succeeds and
`.error e` when it raises the exception with message `e`.  Each handler's
`try/except/raise` block becomes a `match` that, on `.error e`, appends the
log line written by `logger.error` and propagates the same `e`.
-/

/-- A user account (`django.contrib.auth.models.User`): primary key and
username, the two attributes the views read. -/
structure User where
  id : Nat
  username : String
  deriving DecidableEq, Repr

/-- A `Category` record: primary key and display name. -/
structure Category where
  id : Nat
  name : String
  deriving DecidableEq, Repr

/-- A `Recipe` record with the fields the views touch; `category` and
`author` store the foreign keys (ids), `created_date` is the creation
timestamp. -/
structure Recipe where
  pk : Nat
  title : String
  category : Nat
  description : String
  ingredients : String
  cooking_steps : String
  cooking_time : Nat
  active : Bool
  image : String
  created_date : Nat
  author : Nat
  deriving DecidableEq, Repr

/-- The client-submitted form data: exactly the fields listed in
`RecipeCreateView.fields` / `RecipeUpdateView.fields`.  There is no
`author` field — the client cannot submit one. -/
structure RecipeForm where
  title : String
  category : Nat
  description : String
  ingredients : String
  cooking_steps : String
  cooking_time : Nat
  active : Bool
  image : String
  deriving DecidableEq, Repr

/-- A flash message recorded via `django.contrib.messages`. -/
inductive Msg where
  | success : String → Msg
  | error : String → Msg
  deriving DecidableEq, Repr

/-- Outcome of a request: `notFound` is `Http404` from
`get_object_or_404`, `permissionDenied` is the `UserPassesTestMixin`
rejection, `exn e` is an uncaught exception with message `e` re-raised to
the framework. -/
inductive HttpFailure where
  | notFound
  | permissionDenied
  | exn : String → HttpFailure
  deriving DecidableEq, Repr

deriving instance DecidableEq for Except

/-- The log line written by `logger.error(f"An error occurred in
<handler>: <message>")`. -/
def logLine (name msg : String) : String :=
  "An error occurred in " ++ name ++ ": " ++ msg

/-- The uniform `try: ... except Exception as e: logger.error(...); raise`
wrapper around every handler body: the outcome is returned unchanged, and
a log line is emitted exactly when the body raised. -/
def tryLogReraise {α : Type} (name : String) (body : Except String α) :
    List String × Except String α :=
  match body with
  | .ok a => ([], .ok a)
  | .error e => ([logLine name e], .error e)

/-- `RecipeCreateView.fields`: the client-editable fields of the create
form (`views.py` lines 119-121). -/
def RecipeCreateView_fields : List String :=
  ["title", "category", "description", "ingredients", "cooking_steps",
   "cooking_time", "active", "image"]

/-- `RecipeUpdateView.fields`: the client-editable fields of the update
form (`views.py` lines 158-160). -/
def RecipeUpdateView_fields : List String :=
  ["title", "category", "description", "ingredients", "cooking_steps",
   "cooking_time", "active", "image"]

/-- Python `str.upper()` as applied to recipe titles (ASCII fragment):
uppercase every character of the string. -/
def pyUpper (s : String) : String :=
  ⟨s.data.map Char.toUpper⟩

/-- The recipe saved by `RecipeCreateView.form_valid`: the form instance
holds the submitted form fields, then the handler sets
`form.instance.author = self.request.user` and
`form.instance.title = form.cleaned_data['title'].upper()`.
`pk` and `created_date` are assigned by the database on insert. -/
def mkRecipe (form : RecipeForm) (u : Nat) (pk created : Nat) : Recipe :=
  { pk := pk
    title := pyUpper form.title
    category := form.category
    description := form.description
    ingredients := form.ingredients
    cooking_steps := form.cooking_steps
    cooking_time := form.cooking_time
    active := form.active
    image := form.image
    created_date := created
    author := u }

/-- The record stored by `RecipeUpdateView.form_valid`: the editable
fields are overwritten from the form, `author` is reassigned to
`self.request.user`, `title` is uppercased; `pk` and `created_date`
persist. -/
def applyUpdate (r : Recipe) (form : RecipeForm) (u : Nat) : Recipe :=
  { pk := r.pk
    title := pyUpper form.title
    category := form.category
    description := form.description
    ingredients := form.ingredients
    cooking_steps := form.cooking_steps
    cooking_time := form.cooking_time
    active := form.active
    image := form.image
    created_date := r.created_date
    author := u }

/-- `RecipeUpdateView.test_func` / `RecipeDeleteView.test_func`
(identical code): `True` iff `self.request.user == recipe.author`. -/
def test_func (u : Nat) (r : Recipe) : Bool :=
  u == r.author

/-- `RecipeCreateView.form_valid` (`views.py` 123-133).  `save` is the
outcome of `super().form_valid(form)`.  Returns the emitted log lines,
the flash messages, and either the stored recipe or the re-raised
exception.  On failure the handler logs, flashes the error message and
re-raises the same exception. -/
def createFormValid (u : Nat) (form : RecipeForm) (pk created : Nat)
    (save : Except String Unit) : List String × List Msg × Except String Recipe :=
  match save with
  | .ok _ =>
      ([], [Msg.success "Рецепт успешно добавлен."], .ok (mkRecipe form u pk created))
  | .error e =>
      ([logLine "RecipeCreateView" e],
       [Msg.error "Произошла ошибка при сохранении рецепта."], .error e)

/-- `RecipeUpdateView.form_valid` (`views.py` 162-171).  On failure it
only logs and re-raises: unlike the create handler it flashes no error
message. -/
def updateFormValid (u : Nat) (r : Recipe) (form : RecipeForm)
    (save : Except String Unit) : List String × List Msg × Except String Recipe :=
  match save with
  | .ok _ =>
      ([], [Msg.success "Рецепт успешно изменен."], .ok (applyUpdate r form u))
  | .error e =>
      ([logLine "RecipeUpdateView" e], [], .error e)

/-- `RecipeDeleteView.delete` (`views.py` 213-220).  The success flash is
recorded BEFORE `super().delete(request, ...)` runs, so on failure the
messages are the success flash followed by the error flash, and the same
exception is re-raised. -/
def deleteMethod (save : Except String Unit) :
    List String × List Msg × Except String Unit :=
  match save with
  | .ok _ => ([], [Msg.success "Рецепт успешно удален."], .ok ())
  | .error e =>
      ([logLine "RecipeDeleteView" e],
       [Msg.success "Рецепт успешно удален.",
        Msg.error "Произошла ошибка при удалении рецепта."], .error e)

/-- Fetch the recipe with primary key `pk` (`self.get_object()`). -/
def findRecipe (db : List Recipe) (pk : Nat) : Option Recipe :=
  db.find? (fun x => x.pk == pk)

/-- A full update request against the database: fetch the object, run
`test_func` (the `UserPassesTestMixin` gate), then `form_valid`.  Result:
the new database, flash messages, log lines, and the HTTP outcome.  A
denied or failed request leaves the database unchanged. -/
def updateDispatch (db : List Recipe) (pk : Nat) (u : Nat) (form : RecipeForm)
    (save : Except String Unit) :
    List Recipe × List Msg × List String × Except HttpFailure Unit :=
  match findRecipe db pk with
  | none => (db, [], [], .error .notFound)
  | some r =>
    if test_func u r then
      match updateFormValid u r form save with
      | (lg, ms, .ok r2) =>
          (db.map (fun x => if x.pk == pk then r2 else x), ms, lg, .ok ())
      | (lg, ms, .error e) => (db, ms, lg, .error (.exn e))
    else (db, [], [], .error .permissionDenied)

/-- A full delete request against the database: fetch, gate through
`test_func`, then run the `delete` method.  On success the record is
removed; a denied or failed request leaves the database unchanged. -/
def deleteDispatch (db : List Recipe) (pk : Nat) (u : Nat)
    (save : Except String Unit) :
    List Recipe × List Msg × List String × Except HttpFailure Unit :=
  match findRecipe db pk with
  | none => (db, [], [], .error .notFound)
  | some r =>
    if test_func u r then
      match deleteMethod save with
      | (lg, ms, .ok _) => (db.filter (fun x => x.pk != pk), ms, lg, .ok ())
      | (lg, ms, .error e) => (db, ms, lg, .error (.exn e))
    else (db, [], [], .error .permissionDenied)

/-- "newer or equally new": `a` was created no earlier than `b`.  Sorting
by this relation is `order_by('-created_date')`. -/
def newerLe (a b : Recipe) : Prop :=
  b.created_date ≤ a.created_date

instance : DecidableRel newerLe :=
  fun a b => Nat.decLe b.created_date a.created_date

instance : IsTotal Recipe newerLe :=
  ⟨fun a b => le_total b.created_date a.created_date⟩

instance : IsTrans Recipe newerLe :=
  ⟨fun _ _ _ h1 h2 => le_trans h2 h1⟩

/-- `RecipeListView`'s queryset: all recipes with
`ordering = ['-created_date']`. -/
def homeQueryset (db : List Recipe) : List Recipe :=
  List.insertionSort newerLe db

/-- Chunk a list into pages of `per` items (Django pagination,
`paginate_by = per`).  `per = 0` is a degenerate case never used. -/
def paginate {α : Type} : Nat → List α → List (List α)
  | _, [] => []
  | 0, l => [l]
  | per + 1, a :: l =>
      ((a :: l).take (per + 1)) :: paginate (per + 1) ((a :: l).drop (per + 1))
termination_by _ l => l.length
decreasing_by
  simp only [List.length_drop, List.length_cons]
  omega

/-- The pages served by the home listing (`paginate_by = 5`). -/
def homePages (db : List Recipe) : List (List Recipe) :=
  paginate 5 (homeQueryset db)

/-- `UserRecipeListView.get_queryset` (`views.py` 51-57):
`get_object_or_404(User, username=...)` then
`Recipe.objects.filter(author=user).order_by('-created_date')`. -/
def userQueryset (db : List Recipe) (users : List User) (uname : String) :
    Except HttpFailure (List Recipe) :=
  match users.find? (fun x => x.username == uname) with
  | none => .error .notFound
  | some u => .ok (List.insertionSort newerLe (db.filter (fun r => r.author == u.id)))

/-- `RecipeByCategoryView.get_queryset` (`views.py` 77-83):
`get_object_or_404(Category, id=...)` then
`Recipe.objects.filter(category=category)` — note: no `order_by`. -/
def categoryQueryset (db : List Recipe) (cats : List Category) (cid : Nat) :
    Except HttpFailure (List Recipe) :=
  match cats.find? (fun c => c.id == cid) with
  | none => .error .notFound
  | some c => .ok (db.filter (fun r => r.category == c.id))

/-! ### Concrete records used to witness the theorems -/

/-- A concrete recipe: category 5, author 7, created at time 1. -/
def exR1 : Recipe :=
  { pk := 1, title := "BORSCH", category := 5, description := "d1",
    ingredients := "i1", cooking_steps := "s1", cooking_time := 40,
    active := true, image := "a.png", created_date := 1, author := 7 }

/-- A concrete recipe: same category 5, author 8, created later (time 2). -/
def exR2 : Recipe :=
  { pk := 2, title := "PLOV", category := 5, description := "d2",
    ingredients := "i2", cooking_steps := "s2", cooking_time := 60,
    active := true, image := "b.png", created_date := 2, author := 8 }

/-- A concrete database in storage order: oldest first. -/
def exDb : List Recipe := [exR1, exR2]

/-- A concrete category record. -/
def exCat : Category := { id := 5, name := "soups" }

/-- The category table with the single category id 5. -/
def exCats : List Category := [exCat]

/-- A concrete user account: alice, id 7 — the author of `exR1`. -/
def exUser : User := { id := 7, username := "alice" }

/-- The user table with the single account alice (id 7). -/
def exUsers : List User := [exUser]

/-- A concrete submitted form with a lowercase title. -/
def exForm : RecipeForm :=
  { title := "paella", category := 5, description := "d", ingredients := "i",
    cooking_steps := "s", cooking_time := 30, active := true, image := "c.png" }

/-! ### Pagination lemmas -/

/-- Concatenating the pages recovers the original list. -/
theorem paginate_flatten {α : Type} (per : Nat) (l : List α) (hper : 0 < per) :
    (paginate per l).flatten = l := by
  induction per, l using paginate.induct with
  | case1 p => simp [paginate]
  | case2 l => exact absurd hper (by omega)
  | case3 per a l ih =>
      simp only [paginate, List.flatten_cons]
      rw [ih (by omega)]
      exact List.take_append_drop _ _

/-- Page `i` of `paginate per l` is the slice
`l[per*i : per*i + per]`, and pages stop exactly when the list is
exhausted. -/
theorem paginate_getElem {α : Type} (per : Nat) (hper : 0 < per) :
    ∀ (i : Nat) (l : List α), (paginate per l)[i]? =
      if per * i < l.length then some ((l.drop (per * i)).take per) else none := by
  intro i
  induction i with
  | zero =>
      intro l
      cases l with
      | nil => simp [paginate]
      | cons a l =>
          obtain ⟨k, rfl⟩ : ∃ k, per = k + 1 := ⟨per - 1, by omega⟩
          simp [paginate]
  | succ i ih =>
      intro l
      cases l with
      | nil => simp [paginate]
      | cons a l =>
          obtain ⟨k, rfl⟩ : ∃ k, per = k + 1 := ⟨per - 1, by omega⟩
          have hunfold : paginate (k + 1) (a :: l) =
              ((a :: l).take (k + 1)) :: paginate (k + 1) ((a :: l).drop (k + 1)) := by
            simp [paginate]
          rw [hunfold, List.getElem?_cons_succ, ih ((a :: l).drop (k + 1))]
          have hdd : (((a :: l).drop (k + 1)).drop ((k + 1) * i)) =
              (a :: l).drop ((k + 1) * (i + 1)) := by
            rw [List.drop_drop]
            congr 1
            ring
          have hlen : ((a :: l).drop (k + 1)).length = (a :: l).length - (k + 1) := by
            simp
          rw [hdd, hlen]
          have harith : (k + 1) * (i + 1) = (k + 1) * i + (k + 1) := by ring
      
          by_cases hcase : (k + 1) * i < (a :: l).length - (k + 1)
          · rw [if_pos hcase, if_pos (by omega)]
          · rw [if_neg hcase, if_neg (by omega)]

/-! ### Claims -/

/-- C1: for every recipe `r` and authenticated requesting user `u`, the
update and delete operations on `r` are permitted iff `u = r.author`;
when `u ≠ r.author` the attempt answers `permissionDenied` and the
database — hence `r` — is neither modified nor removed. -/
theorem ownership_guard_update_delete
    (db : List Recipe) (pk u : Nat) (form : RecipeForm)
    (save : Except String Unit) (r : Recipe)
    (hfind : findRecipe db pk = some r) :
    ((updateDispatch db pk u form save).2.2.2
        = Except.error HttpFailure.permissionDenied ↔ u ≠ r.author)
    ∧ (u ≠ r.author → (updateDispatch db pk u form save).1 = db)
    ∧ ((deleteDispatch db pk u save).2.2.2
        = Except.error HttpFailure.permissionDenied ↔ u ≠ r.author)
    ∧ (u ≠ r.author → (deleteDispatch db pk u save).1 = db) := by
  by_cases hu : u = r.author
  · cases save <;>
      simp [updateDispatch, deleteDispatch, hfind, test_func, hu,
        updateFormValid, deleteMethod]
  · cases save <;>
      simp [updateDispatch, deleteDispatch, hfind, test_func, hu,
        updateFormValid, deleteMethod]

/-- Witness for C1: user 8 is not the author (7) of recipe `exR1`, and
both requests answer `permissionDenied` leaving the database unchanged. -/
theorem ownership_guard_update_delete_witness :
    findRecipe exDb 1 = some exR1
    ∧ (((updateDispatch exDb 1 8 exForm (Except.ok ())).2.2.2
          = Except.error HttpFailure.permissionDenied ↔ (8 : Nat) ≠ exR1.author)
       ∧ ((8 : Nat) ≠ exR1.author →
          (updateDispatch exDb 1 8 exForm (Except.ok ())).1 = exDb)
       ∧ ((deleteDispatch exDb 1 8 (Except.ok ())).2.2.2
          = Except.error HttpFailure.permissionDenied ↔ (8 : Nat) ≠ exR1.author)
       ∧ ((8 : Nat) ≠ exR1.author →
          (deleteDispatch exDb 1 8 (Except.ok ())).1 = exDb)) :=
  ⟨by decide, ownership_guard_update_delete exDb 1 8 exForm (Except.ok ()) exR1 (by decide)⟩

/-- C2: a successful create stores the authenticated requester as
`author`, and `author` is not among the client-editable fields of either
form, so no client-supplied value can set or change it. -/
theorem create_sets_author_server_side (u : Nat) (form : RecipeForm)
    (pk created : Nat) :
    "author" ∉ RecipeCreateView_fields
    ∧ "author" ∉ RecipeUpdateView_fields
    ∧ (createFormValid u form pk created (Except.ok ())).2.2
        = Except.ok (mkRecipe form u pk created)
    ∧ (mkRecipe form u pk created).author = u :=
  ⟨by decide, by decide, rfl, rfl⟩

/-- C4: the home listing is a permutation of the whole database sorted by
descending creation time, and its pages are exactly the consecutive
five-element slices of that sorted list. -/
theorem home_listing_sorted_paginated (db : List Recipe) :
    (homeQueryset db).Perm db
    ∧ List.Sorted newerLe (homeQueryset db)
    ∧ (homePages db).flatten = homeQueryset db
    ∧ ∀ i : Nat, (homePages db)[i]? =
        if 5 * i < (homeQueryset db).length then
          some (((homeQueryset db).drop (5 * i)).take 5)
        else none :=
  ⟨List.perm_insertionSort newerLe db, List.sorted_insertionSort newerLe db,
   paginate_flatten 5 _ (by omega), fun i => paginate_getElem 5 (by omega) i _⟩

/-- C6: both the create and the update handler store the uppercase
transform of the submitted title; in particular the lowercase title
"paella" is stored as "PAELLA". -/
theorem title_upper_on_create_update (u : Nat) (form : RecipeForm)
    (r : Recipe) (pk created : Nat) :
    (mkRecipe form u pk created).title = pyUpper form.title
    ∧ (applyUpdate r form u).title = pyUpper form.title
    ∧ pyUpper "paella" = "PAELLA" :=
  ⟨rfl, rfl, by decide⟩

/-- C7: when the requester passes the ownership guard, the update
handler's reassignment `form.instance.author = self.request.user` leaves
the stored author unchanged. -/
theorem update_preserves_author (r : Recipe) (form : RecipeForm) (u : Nat)
    (hguard : test_func u r = true) :
    (applyUpdate r form u).author = r.author := by
  have hu : u = r.author := by simpa [test_func] using hguard
  simp [applyUpdate, hu]

/-- Witness for C7: author 7 updating their own recipe keeps author 7. -/
theorem update_preserves_author_witness :
    test_func 7 exR1 = true ∧ (applyUpdate exR1 exForm 7).author = exR1.author :=
  ⟨by decide, update_preserves_author exR1 exForm 7 (by decide)⟩

/-- C8: every handler's `try/except` wrapper returns the body's outcome
unchanged — it never swallows, substitutes or retries — and on an
exception each handler logs its own name with the message and re-raises
the very same exception. -/
theorem handlers_log_and_reraise_unchanged (name : String)
    (x : Except String Unit) (e : String) (u : Nat) (form : RecipeForm)
    (r : Recipe) (pk created : Nat) :
    (tryLogReraise name x).2 = x
    ∧ (tryLogReraise name (Except.error e : Except String Unit)).1 = [logLine name e]
    ∧ (createFormValid u form pk created (Except.error e)).2.2 = Except.error e
    ∧ (createFormValid u form pk created (Except.error e)).1
        = [logLine "RecipeCreateView" e]
    ∧ (updateFormValid u r form (Except.error e)).2.2 = Except.error e
    ∧ (updateFormValid u r form (Except.error e)).1
        = [logLine "RecipeUpdateView" e]
    ∧ (deleteMethod (Except.error e)).2.2 = Except.error e
    ∧ (deleteMethod (Except.error e)).1 = [logLine "RecipeDeleteView" e] := by
  cases x <;> exact ⟨rfl, rfl, rfl, rfl, rfl, rfl, rfl, rfl⟩

/-- C3 counterexample: with the single category 5 and a database stored
oldest-first, the category listing returns the recipes in storage order
`[exR1, exR2]`, which is NOT newest-first (`exR1` is older than `exR2`):
`RecipeByCategoryView.get_queryset` applies no `order_by`. -/
theorem category_listing_not_newest_first_cex :
    categoryQueryset exDb exCats 5 = Except.ok [exR1, exR2]
    ∧ exR1.created_date < exR2.created_date
    ∧ ¬ List.Sorted newerLe [exR1, exR2] :=
  ⟨by decide, by decide, by decide⟩

/-- C3 (amended): the category-filtered listing returns exactly the set
of recipes whose category equals the requested category, in database
storage order (the view applies no newest-first ordering). -/
theorem category_listing_exact_members
    (db : List Recipe) (cats : List Category) (cid : Nat) (c : Category)
    (hfind : cats.find? (fun x => x.id == cid) = some c) :
    ∃ l, categoryQueryset db cats cid = Except.ok l
      ∧ (∀ r : Recipe, r ∈ l ↔ r ∈ db ∧ r.category = c.id)
      ∧ l.Sublist db := by
  refine ⟨db.filter (fun r => r.category == c.id), ?_, ?_, List.filter_sublist _⟩
  · simp [categoryQueryset, hfind]
  · intro r
    rw [List.mem_filter]
    simp

/-- Witness for the amended C3 at the concrete category table. -/
theorem category_listing_exact_members_witness :
    exCats.find? (fun x => x.id == 5) = some exCat
    ∧ ∃ l, categoryQueryset exDb exCats 5 = Except.ok l
        ∧ (∀ r : Recipe, r ∈ l ↔ r ∈ exDb ∧ r.category = exCat.id)
        ∧ l.Sublist exDb :=
  ⟨by decide, category_listing_exact_members exDb exCats 5 exCat (by decide)⟩

/-- C5: for an existing username, the user-filtered listing returns
exactly the recipes authored by that user, sorted newest-first by
creation time. -/
theorem user_listing_exact_and_sorted
    (db : List Recipe) (users : List User) (uname : String) (u : User)
    (hfind : users.find? (fun x => x.username == uname) = some u) :
    ∃ l, userQueryset db users uname = Except.ok l
      ∧ (∀ r : Recipe, r ∈ l ↔ r ∈ db ∧ r.author = u.id)
      ∧ List.Sorted newerLe l := by
  refine ⟨List.insertionSort newerLe (db.filter (fun r => r.author == u.id)),
    ?_, ?_, List.sorted_insertionSort newerLe _⟩
  · simp [userQueryset, hfind]
  · intro r
    rw [(List.perm_insertionSort newerLe _).mem_iff, List.mem_filter]
    simp

/-- Witness for C5: alice's listing contains exactly her recipe. -/
theorem user_listing_exact_and_sorted_witness :
    exUsers.find? (fun x => x.username == "alice") = some exUser
    ∧ ∃ l, userQueryset exDb exUsers "alice" = Except.ok l
        ∧ (∀ r : Recipe, r ∈ l ↔ r ∈ exDb ∧ r.author = exUser.id)
        ∧ List.Sorted newerLe l :=
  ⟨by decide, user_listing_exact_and_sorted exDb exUsers "alice" exUser (by decide)⟩

/-- C9: when no account has the requested username, the user-filtered
listing fails with not-found (`get_object_or_404` raises `Http404`)
instead of answering any recipe list — in particular not an empty one. -/
theorem unknown_username_not_found
    (db : List Recipe) (users : List User) (uname : String)
    (hnone : users.find? (fun x => x.username == uname) = none) :
    userQueryset db users uname = Except.error HttpFailure.notFound := by
  simp [userQueryset, hnone]

/-- Witness for C9: no account is named bob, so the request is a 404. -/
theorem unknown_username_not_found_witness :
    exUsers.find? (fun x => x.username == "bob") = none
    ∧ userQueryset exDb exUsers "bob" = Except.error HttpFailure.notFound :=
  ⟨by decide, unknown_username_not_found exDb exUsers "bob" (by decide)⟩

/-- C10: a delete request that passes the ownership guard flashes the
success message before `super().delete()` runs, so when the deletion
itself raises, the request carries the success flash followed by the
error flash, re-raises the exception, and the recipe is still stored. -/
theorem delete_flashes_success_before_delete
    (db : List Recipe) (pk u : Nat) (e : String) (r : Recipe)
    (hfind : findRecipe db pk = some r) (hguard : test_func u r = true) :
    (deleteDispatch db pk u (Except.error e)).1 = db
    ∧ r ∈ (deleteDispatch db pk u (Except.error e)).1
    ∧ (deleteDispatch db pk u (Except.error e)).2.1
        = [Msg.success "Рецепт успешно удален.",
           Msg.error "Произошла ошибка при удалении рецепта."]
    ∧ (deleteDispatch db pk u (Except.error e)).2.2.2
        = Except.error (HttpFailure.exn e) := by
  have hmem : r ∈ db := List.mem_of_find?_eq_some hfind
  simp [deleteDispatch, hfind, hguard, deleteMethod, hmem]

/-- Witness for C10: alice (7) deletes her own recipe while the delete
itself raises "boom": both flashes are present and `exR1` stays stored. -/
theorem delete_flashes_success_before_delete_witness :
    findRecipe exDb 1 = some exR1
    ∧ test_func 7 exR1 = true
    ∧ ((deleteDispatch exDb 1 7 (Except.error "boom")).1 = exDb
       ∧ exR1 ∈ (deleteDispatch exDb 1 7 (Except.error "boom")).1
       ∧ (deleteDispatch exDb 1 7 (Except.error "boom")).2.1
           = [Msg.success "Рецепт успешно удален.",
              Msg.error "Произошла ошибка при удалении рецепта."]
       ∧ (deleteDispatch exDb 1 7 (Except.error "boom")).2.2.2
           = Except.error (HttpFailure.exn "boom")) :=
  ⟨by decide, by decide,
   delete_flashes_success_before_delete exDb 1 7 "boom" exR1 (by decide) (by decide)⟩
